import Mathlib

/-!
Verification development for the Colstuwjx/job job-service repository.

The Go sources are shallowly embedded as executable Lean definitions:

* `validJobReq`, `launchJob` embed `core.validJobReq` and
  `core.Controller.LaunchJob`; the worker pool behind `pool.Interface` is
  an external collaborator and is modelled as a record of functions
  (`PoolModel`); the calls the controller makes on it are recorded in a
  `PoolCall` list.
* `DoAuth` embeds `api.SecretAuthenticator.DoAuth`.
* `Context.build`, `Context.OPCommand`, `Context.Checkin` embed the
  execution context of package `impl`; the reflective `interface` values
  carried in `JobData.ExtraData` are modelled by the inductive `GoVal`.
* `Configuration.Load`, `Configuration.loadEnvs`, `Configuration.validate`
  embed package `config`; the yaml file is modelled as an already parsed
  partial record `YamlDoc` (gopkg.in/yaml.v2 sets exactly the fields
  present in the document and leaves the others untouched), and the
  process environment, the file system, `net/url.Parse` and
  `utils.TranslateRedisAddress` are an abstract record `SysEnv`.
* `register` embeds `runtime.Register`; the Go `panic` is the `none`
  result.

Go strings are Lean `String`; Go `uint` is `Nat`; the conversion
`uint(n)` for an `int` value is reduction modulo `2 ^ 64`.
-/

namespace JobService

/-! ### Go string primitives

`strings.TrimSpace`, `strings.HasPrefix` and `strings.Contains` are
re-implemented on character lists so that every definition evaluates by
kernel reduction. -/

def isSpaceChar (c : Char) : Bool :=
  c == ' ' || c == '\t' || c == '\n' || c == '\r'

def dropLeadingSpace : List Char → List Char
  | [] => []
  | c :: t => if isSpaceChar c then dropLeadingSpace t else c :: t

/-- Model of Go `strings.TrimSpace`. -/
def goTrimSpace (s : String) : String :=
  ⟨(dropLeadingSpace ((dropLeadingSpace s.data).reverse)).reverse⟩

/-- Modelled from the spec: `utils.IsEmptyStr` (package `utils` is not in
the sources) reports whether a string is empty after trimming whitespace;
the spec only ever asks for fields to be "non-empty". -/
def IsEmptyStr (s : String) : Bool :=
  (goTrimSpace s).data.isEmpty

def listStartsWith : List Char → List Char → Bool
  | _, [] => true
  | [], _ :: _ => false
  | c :: t, p :: q => c == p && listStartsWith t q

/-- Model of Go `strings.HasPrefix s pre`. -/
def startsWithStr (s pre : String) : Bool :=
  listStartsWith s.data pre.data

def listContainsSub (needle : List Char) : List Char → Bool
  | [] => needle.isEmpty
  | c :: t => listStartsWith (c :: t) needle || listContainsSub needle t

/-- Model of Go `strings.Contains s substr`: substring containment. -/
def goStringsContains (s substr : String) : Bool :=
  listContainsSub substr.data s.data

def emptyStr : String := ""

/-! ### Job kinds and request/stat models

Package `models` and the job-kind constants of `impl/job` are not among
the sources; they are modelled from the spec (§3 data model, kinds
`Generic`, `Scheduled`, `Periodic`). -/

/-- Modelled from the spec: job kind `Generic`. -/
def JobKindGeneric : String := "Generic"

/-- Modelled from the spec: job kind `Scheduled`. -/
def JobKindScheduled : String := "Scheduled"

/-- Modelled from the spec: job kind `Periodic`. -/
def JobKindPeriodic : String := "Periodic"

/-- A Go `interface{}` value as it occurs in parameter maps and in
`JobData.ExtraData`: plain data, one of the two typed closures the worker
pool injects, or some other function value. -/
inductive GoVal where
  | str (s : String)
  | num (n : Int)
  | boolean (b : Bool)
  | opCmdF (f : Unit → String × Bool)
  | checkInF (f : String → Unit)
  | otherFunc

/-- Go `map[string]interface{}`. -/
abbrev Params := List (String × GoVal)

/-- Modelled from the spec: `models.JobMetadata`. -/
structure JobMetadata where
  jobKind : String
  cron : String
  scheduleDelay : Nat
  isUnique : Bool

/-- Modelled from the spec: the `job` member of a `models.JobRequest`
(`name`, `parameters`, `status_hook`, `metadata`); `metadata` is a
pointer in Go, hence an `Option`. -/
structure JobBase where
  name : String
  parameters : Params
  statusHook : String
  metadata : Option JobMetadata

/-- Modelled from the spec: `models.JobRequest`; the `job` member is a
pointer in Go, hence an `Option`. -/
structure JobRequest where
  job : Option JobBase

/-- Modelled from the spec: the stats member of `models.JobStats`; only
the fields the controller touches are kept. -/
structure JobStatData where
  jobID : String
  status : String
  hookStatus : String
deriving DecidableEq

/-- Modelled from the spec: `models.JobStats`. -/
structure JobStats where
  stats : JobStatData
deriving DecidableEq

/-! ### Controller (`core` package, `src/unnamed/part_000`) -/

def hookActivated : String := "activated"

def hookDeactivated : String := "error"

/-- The distinct error returns of `validJobReq` and `LaunchJob`; the Go
code returns `errors.New`/`fmt.Errorf` values, distinguished here by
constructor. The first seven constructors are the `InvalidRequest`
validation failures. -/
inductive LaunchError where
  | emptyJobRequest
  | missingJobName
  | missingMetadata
  | unsupportedKind (kind : String)
  | missingScheduleDelay
  | missingCronSpec
  | invalidCronSpec
  | unknownJob (name : String)
  | invalidParameters
  | backendError
deriving DecidableEq

/-- The `InvalidRequest` class of `LaunchError`: the errors produced by
`validJobReq`. -/
def LaunchError.isInvalidRequest : LaunchError → Bool
  | .emptyJobRequest => true
  | .missingJobName => true
  | .missingMetadata => true
  | .unsupportedKind _ => true
  | .missingScheduleDelay => true
  | .missingCronSpec => true
  | .invalidCronSpec => true
  | _ => false

/-- A call the controller makes on the backend pool. -/
inductive PoolCall where
  | enqueue (name : String) (params : Params) (isUnique : Bool)
  | schedule (name : String) (params : Params) (delay : Nat) (isUnique : Bool)
  | periodicallyEnqueue (name : String) (params : Params) (cron : String)
  | registerHook (jobID : String) (url : String)

/-- The backend pool (`pool.Interface`) as the controller sees it: an
external collaborator modelled by its observable behaviour.
`isKnownJob` returns the job type when the name is registered,
`validateJobParameters` reports acceptance, the three enqueue operations
return the stats or a backend error, `registerHook` reports success. -/
structure PoolModel where
  isKnownJob : String → Option String
  validateJobParameters : String → Params → Bool
  enqueue : String → Params → Bool → Except Unit JobStats
  schedule : String → Params → Nat → Bool → Except Unit JobStats
  periodicallyEnqueue : String → Params → String → Except Unit JobStats
  registerHook : String → String → Bool

/-- Embedding of `core.validJobReq` (part_000 lines 152-192).
`cronOk` models `cron.Parse` of github.com/robfig/cron succeeding. -/
def validJobReq (cronOk : String → Bool) (req : JobRequest) : Option LaunchError :=
  match req.job with
  | none => some LaunchError.emptyJobRequest
  | some j =>
    if IsEmptyStr j.name then some LaunchError.missingJobName
    else
      match j.metadata with
      | none => some LaunchError.missingMetadata
      | some md =>
        if md.jobKind != JobKindGeneric && md.jobKind != JobKindPeriodic &&
            md.jobKind != JobKindScheduled then
          some (LaunchError.unsupportedKind md.jobKind)
        else if md.jobKind == JobKindScheduled && md.scheduleDelay == 0 then
          some LaunchError.missingScheduleDelay
        else if md.jobKind == JobKindPeriodic then
          if IsEmptyStr md.cron then some LaunchError.missingCronSpec
          else if ! cronOk md.cron then some LaunchError.invalidCronSpec
          else none
        else none

/-- The dispatch switch of `LaunchJob` (part_000 lines 62-76): the pool
operation chosen by kind, together with the call record. -/
def dispatch (p : PoolModel) (j : JobBase) (md : JobMetadata) :
    Except Unit JobStats × PoolCall :=
  if md.jobKind == JobKindScheduled then
    (p.schedule j.name j.parameters md.scheduleDelay md.isUnique,
     PoolCall.schedule j.name j.parameters md.scheduleDelay md.isUnique)
  else if md.jobKind == JobKindPeriodic then
    (p.periodicallyEnqueue j.name j.parameters md.cron,
     PoolCall.periodicallyEnqueue j.name j.parameters md.cron)
  else
    (p.enqueue j.name j.parameters md.isUnique,
     PoolCall.enqueue j.name j.parameters md.isUnique)

/-- The assignment `res.Stats.HookStatus = v` of `LaunchJob`. -/
def withHookStatus (res : JobStats) (v : String) : JobStats :=
  { res with stats := { res.stats with hookStatus := v } }

/-- Embedding of `core.Controller.LaunchJob` (part_000 lines 40-90),
returning the result and the list of pool calls made. The two `none`
fallback branches are unreachable: `validJobReq` has already ruled them
out (in Go the fields are dereferenced directly). -/
def launchJob (cronOk : String → Bool) (p : PoolModel) (req : JobRequest) :
    Except LaunchError JobStats × List PoolCall :=
  match validJobReq cronOk req with
  | some e => (Except.error e, [])
  | none =>
    match req.job with
    | none => (Except.error LaunchError.emptyJobRequest, [])
    | some j =>
      match p.isKnownJob j.name with
      | none => (Except.error (LaunchError.unknownJob j.name), [])
      | some jobType =>
        if ! p.validateJobParameters jobType j.parameters then
          (Except.error LaunchError.invalidParameters, [])
        else
          match j.metadata with
          | none => (Except.error LaunchError.missingMetadata, [])
          | some md =>
            match dispatch p j md with
            | (Except.error _, call) => (Except.error LaunchError.backendError, [call])
            | (Except.ok res, call) =>
              if IsEmptyStr j.statusHook then (Except.ok res, [call])
              else if p.registerHook res.stats.jobID j.statusHook then
                (Except.ok (withHookStatus res hookActivated),
                 [call, PoolCall.registerHook res.stats.jobID j.statusHook])
              else
                (Except.ok (withHookStatus res hookDeactivated),
                 [call, PoolCall.registerHook res.stats.jobID j.statusHook])

/-- The first failing check of `LaunchJob`, written in the order the spec
declares normative (§4.1, items 1-6): job present with non-empty name
and metadata; kind in the supported set; `Scheduled` delay positive;
`Periodic` cron non-empty and parseable; name registered; parameters
accepted. This definition follows the spec's words and is compared with
the composed source functions. -/
def specValidationError (cronOk : String → Bool) (p : PoolModel) (req : JobRequest) :
    Option LaunchError :=
  match req.job with
  | none => some LaunchError.emptyJobRequest
  | some j =>
    if IsEmptyStr j.name then some LaunchError.missingJobName
    else
      match j.metadata with
      | none => some LaunchError.missingMetadata
      | some md =>
        if md.jobKind != JobKindGeneric && md.jobKind != JobKindPeriodic &&
            md.jobKind != JobKindScheduled then
          some (LaunchError.unsupportedKind md.jobKind)
        else if md.jobKind == JobKindScheduled && md.scheduleDelay == 0 then
          some LaunchError.missingScheduleDelay
        else if md.jobKind == JobKindPeriodic && IsEmptyStr md.cron then
          some LaunchError.missingCronSpec
        else if md.jobKind == JobKindPeriodic && ! cronOk md.cron then
          some LaunchError.invalidCronSpec
        else
          match p.isKnownJob j.name with
          | none => some (LaunchError.unknownJob j.name)
          | some jobType =>
            if ! p.validateJobParameters jobType j.parameters then
              some LaunchError.invalidParameters
            else none

/-! ### Secret authenticator (`api` package, src/main.go lines 404-454) -/

def authHeader : String := "Authorization"

/-- The secret of the UI side is read from this environment variable
(src/main.go line 93). -/
def uiAuthSecret : String := "CORE_SECRET"

/-- An incoming HTTP request, reduced to its headers; `Header.Get`
returns the first value, or the empty string. -/
structure HTTPRequest where
  headers : List (String × String)

def headerGet (hs : List (String × String)) (k : String) : String :=
  match hs.lookup k with
  | some v => v
  | none => emptyStr

inductive AuthError where
  | nilRequest
  | missingHeader
  | unauthorized
deriving DecidableEq

/-- Embedding of `api.SecretAuthenticator.DoAuth` (src/main.go lines
438-454). `readEnv` models the process environment;
`config.GetUIAuthSecret` is `readEnv uiAuthSecret`. A `none` result is a
successful authentication. -/
def DoAuth (readEnv : String → String) (req : Option HTTPRequest) : Option AuthError :=
  match req with
  | none => some AuthError.nilRequest
  | some r =>
    let secret := goTrimSpace (headerGet r.headers authHeader)
    if IsEmptyStr secret then some AuthError.missingHeader
    else
      let expectedSecret := readEnv uiAuthSecret
      if secret != expectedSecret then some AuthError.unauthorized
      else none

/-! ### Job registry (`runtime` package, src/runtime/bootstrap.go) -/

/-- Embedding of `runtime.Register` (bootstrap.go lines 40-47) acting on
the `registerJobs` map, modelled as an association list. A first
registration of a name stores the implementation; a duplicate
registration panics, modelled by the `none` result. -/
def register {α : Type} (registerJobs : List (String × α)) (jobName : String)
    (jobFunc : α) : Option (List (String × α)) :=
  match registerJobs.lookup jobName with
  | none => some ((jobName, jobFunc) :: registerJobs)
  | some _ => none

/-! ### Execution context (`impl` package, src/main.go lines 455-592) -/

/-- A per-job logger as `jlogger.New` produces it (package `impl/logger`
is not among the sources). Modelled from the spec: a level-filtered
logger whose sink is the file at the given path; `Build` only tests it
for `nil`. -/
structure JobLogger where
  path : String
  level : String
deriving DecidableEq

def opCommandFuncKey : String := "opCommandFunc"

def checkInFuncKey : String := "checkInFunc"

/-- `env.JobData`: id plus the `ExtraData` property bag (the fields the
context reads). -/
structure JobData where
  id : String
  extraData : List (String × GoVal)

/-- The execution context of package `impl`. The system context is an
opaque token; the two closures and the logger are pointers in Go, hence
`Option`s. -/
structure Context where
  sysContext : Nat
  logger : Option JobLogger
  opCommandFunc : Option (Unit → String × Bool)
  checkInFunc : Option (String → Unit)
  properties : List (String × GoVal)

/-- Embedding of `impl.NewContext` (src/main.go lines 495-500). -/
def NewContext (sysCtx : Nat) : Context :=
  { sysContext := sysCtx, logger := none, opCommandFunc := none,
    checkInFunc := none, properties := [] }

inductive BuildError where
  | loggerInitFailed
  | missingOpCommandFunc
  | missingCheckInFunc
deriving DecidableEq

/-- Embedding of `impl.Context.Build` (src/main.go lines 511-556).
`newLogger` models `jlogger.New`; `basePath` and `logLevel` model
`config.GetLogBasePath()` and `config.GetLogLevel()`. The reflective
guards (`reflect.Kind == Func` plus the type assertion) accept exactly
the matching `GoVal` closure constructors. -/
def Context.build (newLogger : String → String → Option JobLogger)
    (basePath logLevel : String) (c : Context) (dep : JobData) :
    Except BuildError Context :=
  let jc : Context :=
    { sysContext := c.sysContext, logger := none, opCommandFunc := none,
      checkInFunc := none, properties := c.properties }
  let logPath := basePath ++ "/" ++ dep.id ++ ".log"
  match newLogger logPath logLevel with
  | none => Except.error BuildError.loggerInitFailed
  | some lg =>
    let jc := { jc with logger := some lg }
    let jc :=
      match dep.extraData.lookup opCommandFuncKey with
      | some (GoVal.opCmdF f) => { jc with opCommandFunc := some f }
      | _ => jc
    match jc.opCommandFunc with
    | none => Except.error BuildError.missingOpCommandFunc
    | some _ =>
      let jc :=
        match dep.extraData.lookup checkInFuncKey with
        | some (GoVal.checkInF f) => { jc with checkInFunc := some f }
        | _ => jc
      match jc.checkInFunc with
      | none => Except.error BuildError.missingCheckInFunc
      | some _ => Except.ok jc

inductive CheckinError where
  | nilCheckInFunc
deriving DecidableEq

/-- Embedding of `impl.Context.Checkin` (src/main.go lines 570-578). -/
def Context.Checkin (c : Context) (status : String) : Except CheckinError Unit :=
  match c.checkInFunc with
  | some f =>
    let _ := f status
    Except.ok ()
  | none => Except.error CheckinError.nilCheckInFunc

/-- Embedding of `impl.Context.OPCommand` (src/main.go lines 581-587). -/
def Context.OPCommand (c : Context) : String × Bool :=
  match c.opCommandFunc with
  | some f => f ()
  | none => (emptyStr, false)

/-! ### Configuration (`config` package, src/main.go lines 51-403) -/

def jobServiceProtocol : String := "JOB_SERVICE_PROTOCOL"

def jobServicePort : String := "JOB_SERVICE_PORT"

def jobServiceHTTPCert : String := "JOB_SERVICE_HTTPS_CERT"

def jobServiceHTTPKey : String := "JOB_SERVICE_HTTPS_KEY"

def jobServiceWorkerPoolBackend : String := "JOB_SERVICE_POOL_BACKEND"

def jobServiceWorkers : String := "JOB_SERVICE_POOL_WORKERS"

def jobServiceRedisURL : String := "JOB_SERVICE_POOL_REDIS_URL"

def jobServiceRedisNamespace : String := "JOB_SERVICE_POOL_REDIS_NAMESPACE"

def jobServiceLoggerBasePath : String := "JOB_SERVICE_LOGGER_BASE_PATH"

def jobServiceLoggerLevel : String := "JOB_SERVICE_LOGGER_LEVEL"

def jobServiceLoggerArchivePeriod : String := "JOB_SERVICE_LOGGER_ARCHIVE_PERIOD"

def JobServiceProtocolHTTPS : String := "https"

def JobServiceProtocolHTTP : String := "http"

def JobServicePoolBackendRedis : String := "redis"

def redisSchema : String := "redis://"

def validLevels : String := "DEBUG,INFO,WARNING,ERROR,FATAL"

structure HTTPSConfig where
  cert : String
  key : String
deriving DecidableEq

/-- `config.RedisPoolConfig`; `namespace` is a Lean keyword, kept as
`nameSpace`. -/
structure RedisPoolConfig where
  redisURL : String
  nameSpace : String
deriving DecidableEq

structure PoolConfig where
  workerCount : Nat
  backend : String
  redisPoolCfg : Option RedisPoolConfig
deriving DecidableEq

structure LoggerConfig where
  basePath : String
  logLevel : String
  archivePeriod : Nat
deriving DecidableEq

structure Configuration where
  protocol : String
  port : Nat
  httpsConfig : Option HTTPSConfig
  poolConfig : Option PoolConfig
  loggerConfig : Option LoggerConfig
deriving DecidableEq

/-- Go zero values of the pointed-to structs, used when a nil pointer
field is first allocated. -/
def defaultHTTPSConfig : HTTPSConfig := { cert := emptyStr, key := emptyStr }

def defaultRedisPoolConfig : RedisPoolConfig :=
  { redisURL := emptyStr, nameSpace := emptyStr }

def defaultPoolConfig : PoolConfig :=
  { workerCount := 0, backend := emptyStr, redisPoolCfg := none }

def defaultLoggerConfig : LoggerConfig :=
  { basePath := emptyStr, logLevel := emptyStr, archivePeriod := 0 }

/-- The collaborators of package `config` that are outside the sources:
the process environment (`utils.ReadEnv`), the file system
(`utils.FileExists`, `utils.DirExists`), the URL parser
(`net/url.Parse` succeeding) and `utils.TranslateRedisAddress`. -/
structure SysEnv where
  readEnv : String → String
  fileExists : String → Bool
  dirExists : String → Bool
  urlParseOk : String → Bool
  translateRedisAddress : String → Option String

/-- An environment variable as `loadEnvs` sees it: `some` when set to a
non-empty (after trimming) string. -/
def envStr (env : SysEnv) (k : String) : Option String :=
  let v := env.readEnv k
  if IsEmptyStr v then none else some v

/-- Model of Go `strconv.Atoi`: an optional-signed decimal integer
fitting a 64-bit int. -/
def goAtoi (s : String) : Option Int :=
  match s.toInt? with
  | none => none
  | some v => if v < -(2 ^ 63) ∨ (2 : Int) ^ 63 ≤ v then none else some v

/-- Go `uint(v)` for an `int` value: reduction modulo `2 ^ 64`. -/
def goUintOfInt (v : Int) : Nat := (v % (2 : Int) ^ 64).toNat

/-- A numeric environment variable: set, non-empty and parsed by
`strconv.Atoi` (then converted to `uint`). -/
def envNat (env : SysEnv) (k : String) : Option Nat :=
  match envStr env k with
  | none => none
  | some s =>
    match goAtoi s with
    | none => none
    | some v => some (goUintOfInt v)

/-! The yaml file, as already parsed by gopkg.in/yaml.v2: a partial
configuration record. Unmarshalling into an existing struct sets exactly
the fields present in the document and leaves absent fields (and absent
nested sections) untouched; a nil pointer target is allocated to its
zero value first. -/

structure YamlHTTPS where
  cert : Option String
  key : Option String

structure YamlRedisPool where
  redisURL : Option String
  nameSpace : Option String

structure YamlPool where
  workerCount : Option Nat
  backend : Option String
  redisPool : Option YamlRedisPool

structure YamlLogger where
  basePath : Option String
  logLevel : Option String
  archivePeriod : Option Nat

structure YamlDoc where
  protocol : Option String
  port : Option Nat
  httpsConfig : Option YamlHTTPS
  poolConfig : Option YamlPool
  loggerConfig : Option YamlLogger

def mergeHTTPS (y : YamlHTTPS) (h0 : Option HTTPSConfig) : HTTPSConfig :=
  let h := h0.getD defaultHTTPSConfig
  { cert := y.cert.getD h.cert, key := y.key.getD h.key }

def mergeHTTPSOpt (dh : Option YamlHTTPS) (h : Option HTTPSConfig) :
    Option HTTPSConfig :=
  match dh with
  | none => h
  | some y => some (mergeHTTPS y h)

def mergeRedisPool (y : YamlRedisPool) (r0 : Option RedisPoolConfig) :
    RedisPoolConfig :=
  let r := r0.getD defaultRedisPoolConfig
  { redisURL := y.redisURL.getD r.redisURL, nameSpace := y.nameSpace.getD r.nameSpace }

def mergePool (y : YamlPool) (p0 : Option PoolConfig) : PoolConfig :=
  let p := p0.getD defaultPoolConfig
  { workerCount := y.workerCount.getD p.workerCount,
    backend := y.backend.getD p.backend,
    redisPoolCfg :=
      match y.redisPool with
      | none => p.redisPoolCfg
      | some yr => some (mergeRedisPool yr p.redisPoolCfg) }

def mergePoolOpt (dp : Option YamlPool) (p : Option PoolConfig) :
    Option PoolConfig :=
  match dp with
  | none => p
  | some y => some (mergePool y p)

def mergeLogger (y : YamlLogger) (l0 : Option LoggerConfig) : LoggerConfig :=
  let l := l0.getD defaultLoggerConfig
  { basePath := y.basePath.getD l.basePath,
    logLevel := y.logLevel.getD l.logLevel,
    archivePeriod := y.archivePeriod.getD l.archivePeriod }

def mergeLoggerOpt (dl : Option YamlLogger) (l : Option LoggerConfig) :
    Option LoggerConfig :=
  match dl with
  | none => l
  | some y => some (mergeLogger y l)

/-- `yaml.Unmarshal(data, c)` for an already parsed document. -/
def unmarshal (doc : YamlDoc) (c : Configuration) : Configuration :=
  { protocol := doc.protocol.getD c.protocol,
    port := doc.port.getD c.port,
    httpsConfig := mergeHTTPSOpt doc.httpsConfig c.httpsConfig,
    poolConfig := mergePoolOpt doc.poolConfig c.poolConfig,
    loggerConfig := mergeLoggerOpt doc.loggerConfig c.loggerConfig }

/-- The https section of `loadEnvs` (src/main.go lines 239-262): when
serving https, an env certificate or key overrides (allocating the
struct when nil). -/
def applyHTTPSEnv (ce ke : Option String) (h0 : Option HTTPSConfig) :
    Option HTTPSConfig :=
  let h1 :=
    match ce with
    | none => h0
    | some v => some { h0.getD defaultHTTPSConfig with cert := v }
  match ke with
  | none => h1
  | some v => some { h1.getD defaultHTTPSConfig with key := v }

/-- The redis subsection of `loadEnvs` (src/main.go lines 283-298). -/
def applyRedisEnv (ue ne : Option String) (p : PoolConfig) : PoolConfig :=
  let rc1 :=
    match ue with
    | none => p.redisPoolCfg
    | some u => some { p.redisPoolCfg.getD defaultRedisPoolConfig with redisURL := u }
  let rc2 :=
    match ne with
    | none => rc1
    | some n => some { rc1.getD defaultRedisPoolConfig with nameSpace := n }
  { p with redisPoolCfg := rc2 }

/-- The worker-pool section of `loadEnvs` (src/main.go lines 264-298):
backend and worker-count overrides allocate the pool config when nil;
the redis variables are read only when the backend is then `redis`. -/
def applyPoolEnv (be : Option String) (we : Option Nat) (ue ne : Option String)
    (p0 : Option PoolConfig) : Option PoolConfig :=
  let p1 :=
    match be with
    | none => p0
    | some b => some { p0.getD defaultPoolConfig with backend := b }
  let p2 :=
    match we with
    | none => p1
    | some w => some { p1.getD defaultPoolConfig with workerCount := w }
  match p2 with
  | none => none
  | some p =>
    if p.backend == JobServicePoolBackendRedis then some (applyRedisEnv ue ne p)
    else some p

/-- The logger section of `loadEnvs` (src/main.go lines 300-325). -/
def applyLoggerEnv (pe le : Option String) (ae : Option Nat)
    (l0 : Option LoggerConfig) : Option LoggerConfig :=
  let l1 :=
    match pe with
    | none => l0
    | some v => some { l0.getD defaultLoggerConfig with basePath := v }
  let l2 :=
    match le with
    | none => l1
    | some v => some { l1.getD defaultLoggerConfig with logLevel := v }
  match ae with
  | none => l2
  | some v => some { l2.getD defaultLoggerConfig with archivePeriod := v }

/-- Embedding of `config.Configuration.loadEnvs` (src/main.go lines
226-326): each set (non-empty, and for numbers parseable) environment
variable overrides the current value; the https variables are read only
when the protocol (after its own override) is https. -/
def Configuration.loadEnvs (env : SysEnv) (c : Configuration) : Configuration :=
  let protocol := (envStr env jobServiceProtocol).getD c.protocol
  let port := (envNat env jobServicePort).getD c.port
  let httpsConfig :=
    if protocol == JobServiceProtocolHTTPS then
      applyHTTPSEnv (envStr env jobServiceHTTPCert) (envStr env jobServiceHTTPKey)
        c.httpsConfig
    else c.httpsConfig
  let poolConfig :=
    applyPoolEnv (envStr env jobServiceWorkerPoolBackend) (envNat env jobServiceWorkers)
      (envStr env jobServiceRedisURL) (envStr env jobServiceRedisNamespace) c.poolConfig
  let loggerConfig :=
    applyLoggerEnv (envStr env jobServiceLoggerBasePath) (envStr env jobServiceLoggerLevel)
      (envNat env jobServiceLoggerArchivePeriod) c.loggerConfig
  { protocol := protocol, port := port, httpsConfig := httpsConfig,
    poolConfig := poolConfig, loggerConfig := loggerConfig }

/-- The redis-url rewrite of `Load` (src/main.go lines 172-187) on a
single address string: an address that fails `url.Parse` goes through
`utils.TranslateRedisAddress`; one that parses but lacks the `redis://`
schema gets it prepended. -/
def normalizeRedisURL (env : SysEnv) (u : String) : String :=
  if IsEmptyStr u then u
  else if ! env.urlParseOk u then
    match env.translateRedisAddress u with
    | some r => r
    | none => u
  else if ! startsWithStr u redisSchema then redisSchema ++ u
  else u

/-- The redis-url rewrite applied to the pool configuration (a no-op
when the pool or redis config is absent). -/
def tPool (env : SysEnv) (p : Option PoolConfig) : Option PoolConfig :=
  match p with
  | none => none
  | some pc =>
    match pc.redisPoolCfg with
    | none => some pc
    | some rc =>
      let rc2 : RedisPoolConfig := { rc with redisURL := normalizeRedisURL env rc.redisURL }
      some { pc with redisPoolCfg := some rc2 }

def translateRedisURLStep (env : SysEnv) (c : Configuration) : Configuration :=
  { c with poolConfig := tPool env c.poolConfig }

/-- Model of `utils.IsValidPort` (package `utils` is not among the
sources). Modelled from the spec: the port is a non-zero integer no
greater than 65535. -/
def IsValidPort (p : Nat) : Bool :=
  0 < p && p ≤ 65535

inductive ConfigError where
  | badProtocol
  | badPort
  | missingHTTPSConfig
  | badCertificate
  | missingPoolConfig
  | unsupportedBackend
  | missingRedisPool
  | emptyRedisURL
  | redisURLNoSchema
  | redisURLUnparseable
  | emptyNamespace
  | missingLoggerConfig
  | badLoggerPath
  | badLoggerLevel
  | zeroArchivePeriod
deriving DecidableEq

/-- The first error of two sequential checks: Go's early `return err`
pattern. -/
def firstErr (a b : Option ConfigError) : Option ConfigError :=
  match a with
  | some e => some e
  | none => b

/-- `validate` lines 330-340: protocol and port. -/
def checkProtocolPort (c : Configuration) : Option ConfigError :=
  if c.protocol != JobServiceProtocolHTTPS && c.protocol != JobServiceProtocolHTTP then
    some ConfigError.badProtocol
  else if ! IsValidPort c.port then some ConfigError.badPort
  else none

/-- `validate` lines 342-353: certificate configuration when serving
https. -/
def checkHTTPSCert (env : SysEnv) (c : Configuration) : Option ConfigError :=
  if c.protocol == JobServiceProtocolHTTPS && c.httpsConfig.isNone then
    some ConfigError.missingHTTPSConfig
  else if c.protocol == JobServiceProtocolHTTPS &&
      (IsEmptyStr (c.httpsConfig.getD defaultHTTPSConfig).cert ||
       ! env.fileExists (c.httpsConfig.getD defaultHTTPSConfig).cert ||
       IsEmptyStr (c.httpsConfig.getD defaultHTTPSConfig).key ||
       ! env.fileExists (c.httpsConfig.getD defaultHTTPSConfig).key) then
    some ConfigError.badCertificate
  else none

/-- `validate` lines 355-383: worker pool, backend and redis pool. -/
def checkPool (env : SysEnv) (c : Configuration) : Option ConfigError :=
  match c.poolConfig with
  | none => some ConfigError.missingPoolConfig
  | some pc =>
    if pc.backend != JobServicePoolBackendRedis then some ConfigError.unsupportedBackend
    else
      match pc.redisPoolCfg with
      | none => some ConfigError.missingRedisPool
      | some rc =>
        if IsEmptyStr rc.redisURL then some ConfigError.emptyRedisURL
        else if ! startsWithStr rc.redisURL redisSchema then
          some ConfigError.redisURLNoSchema
        else if ! env.urlParseOk rc.redisURL then some ConfigError.redisURLUnparseable
        else if IsEmptyStr rc.nameSpace then some ConfigError.emptyNamespace
        else none

/-- `validate` lines 385-400: logger path, level and archive period.
Note the level check is Go
`strings.Contains(validLevels, c.LoggerConfig.LogLevel)`: a substring
test against the comma-joined list. -/
def checkLogger (env : SysEnv) (c : Configuration) : Option ConfigError :=
  match c.loggerConfig with
  | none => some ConfigError.missingLoggerConfig
  | some lc =>
    if ! env.dirExists lc.basePath then some ConfigError.badLoggerPath
    else if ! goStringsContains validLevels lc.logLevel then
      some ConfigError.badLoggerLevel
    else if lc.archivePeriod == 0 then some ConfigError.zeroArchivePeriod
    else none

/-- Embedding of `config.Configuration.validate` (src/main.go lines
329-403): the sequential early returns, grouped into the four check
blocks in source order; `none` means valid. -/
def Configuration.validate (env : SysEnv) (c : Configuration) : Option ConfigError :=
  firstErr (checkProtocolPort c)
    (firstErr (checkHTTPSCert env c)
      (firstErr (checkPool env c) (checkLogger env c)))

/-- The unmarshal step of `Load`: skipped when no yaml path was
given. -/
def unmarshalOpt (doc : Option YamlDoc) (c : Configuration) : Configuration :=
  match doc with
  | none => c
  | some d => unmarshal d c

/-- Unmarshal plus env overrides: the state of `Load` before the
redis-url rewrite. -/
def emStep (env : SysEnv) (doc : Option YamlDoc) (c : Configuration) : Configuration :=
  (unmarshalOpt doc c).loadEnvs env

/-- The pure state transformation of a `Load` with env detection: yaml
unmarshal, env overrides, redis-url rewrite. -/
def loadSteps (env : SysEnv) (doc : Option YamlDoc) (c : Configuration) :
    Configuration :=
  translateRedisURLStep env (emStep env doc c)

/-- Embedding of `config.Configuration.Load` (src/main.go lines
154-191): unmarshal the yaml document (if a path was given) over the
current struct, apply env overrides when `detectEnv`, rewrite the redis
url, then validate. Returns the mutated struct and the error. -/
def Configuration.Load (env : SysEnv) (doc : Option YamlDoc) (detectEnv : Bool)
    (c : Configuration) : Configuration × Option ConfigError :=
  let c1 := unmarshalOpt doc c
  let c2 := if detectEnv then c1.loadEnvs env else c1
  let c3 := translateRedisURLStep env c2
  (c3, c3.validate env)

/-! Projections used to reason about `Load`: each reads a field through
the Go nil-pointer default. -/

def certOf (h : Option HTTPSConfig) : String := (h.getD defaultHTTPSConfig).cert

def keyOf (h : Option HTTPSConfig) : String := (h.getD defaultHTTPSConfig).key

def wcOf (p : Option PoolConfig) : Nat := (p.getD defaultPoolConfig).workerCount

def bkOf (p : Option PoolConfig) : String := (p.getD defaultPoolConfig).backend

def rcOf (p : Option PoolConfig) : Option RedisPoolConfig :=
  (p.getD defaultPoolConfig).redisPoolCfg

def urlOf (p : Option PoolConfig) : String :=
  ((rcOf p).getD defaultRedisPoolConfig).redisURL

def nsOf (p : Option PoolConfig) : String :=
  ((rcOf p).getD defaultRedisPoolConfig).nameSpace

def pathOf (l : Option LoggerConfig) : String := (l.getD defaultLoggerConfig).basePath

def levelOf (l : Option LoggerConfig) : String := (l.getD defaultLoggerConfig).logLevel

def periodOf (l : Option LoggerConfig) : Nat := (l.getD defaultLoggerConfig).archivePeriod

/-! The fields of an optional yaml document. -/

def docProtocol (doc : Option YamlDoc) : Option String := doc.bind fun y => y.protocol

def docPort (doc : Option YamlDoc) : Option Nat := doc.bind fun y => y.port

def docHTTPS (doc : Option YamlDoc) : Option YamlHTTPS := doc.bind fun y => y.httpsConfig

def docCert (doc : Option YamlDoc) : Option String := (docHTTPS doc).bind fun y => y.cert

def docKey (doc : Option YamlDoc) : Option String := (docHTTPS doc).bind fun y => y.key

def docPool (doc : Option YamlDoc) : Option YamlPool := doc.bind fun y => y.poolConfig

def docWorkers (doc : Option YamlDoc) : Option Nat := (docPool doc).bind fun y => y.workerCount

def docBackend (doc : Option YamlDoc) : Option String := (docPool doc).bind fun y => y.backend

def docRedisPool (doc : Option YamlDoc) : Option YamlRedisPool :=
  (docPool doc).bind fun y => y.redisPool

def docRedisURL (doc : Option YamlDoc) : Option String :=
  (docRedisPool doc).bind fun y => y.redisURL

def docNamespace (doc : Option YamlDoc) : Option String :=
  (docRedisPool doc).bind fun y => y.nameSpace

def docLogger (doc : Option YamlDoc) : Option YamlLogger := doc.bind fun y => y.loggerConfig

def docPath (doc : Option YamlDoc) : Option String := (docLogger doc).bind fun y => y.basePath

def docLevel (doc : Option YamlDoc) : Option String := (docLogger doc).bind fun y => y.logLevel

def docPeriod (doc : Option YamlDoc) : Option Nat := (docLogger doc).bind fun y => y.archivePeriod

/-- The guard of the redis subsection of `loadEnvs`, expressed on the
input of `applyPoolEnv`: the pool config exists after the backend and
worker overrides and its backend is `redis`. -/
def apCond (be : Option String) (we : Option Nat) (q : Option PoolConfig) : Bool :=
  (be.isSome || we.isSome || q.isSome) &&
    (be.getD (bkOf q) == JobServicePoolBackendRedis)

/-! ### Concrete witness inputs -/

def nameDEMO : String := "DEMO"

def jobTypeW : String := "demoType"

def hookURLW : String := "https://hook.example.test"

def statsW : JobStats :=
  { stats := { jobID := "uuid-1", status := "pending", hookStatus := emptyStr } }

def cronOkW : String → Bool := fun _ => false

def poolW : PoolModel :=
  { isKnownJob := fun n => if n == nameDEMO then some jobTypeW else none,
    validateJobParameters := fun _ _ => true,
    enqueue := fun _ _ _ => Except.ok statsW,
    schedule := fun _ _ _ _ => Except.ok statsW,
    periodicallyEnqueue := fun _ _ _ => Except.ok statsW,
    registerHook := fun _ _ => true }

def mdBadW : JobMetadata :=
  { jobKind := "Weird", cron := emptyStr, scheduleDelay := 0, isUnique := false }

def reqBadW : JobRequest :=
  { job := some { name := "  ", parameters := [], statusHook := emptyStr,
                  metadata := some mdBadW } }

def mdGenericW : JobMetadata :=
  { jobKind := JobKindGeneric, cron := emptyStr, scheduleDelay := 0, isUnique := false }

def jHookW : JobBase :=
  { name := nameDEMO, parameters := [], statusHook := hookURLW,
    metadata := some mdGenericW }

def reqHookW : JobRequest := { job := some jHookW }

def mdSchedZeroW : JobMetadata :=
  { jobKind := JobKindScheduled, cron := emptyStr, scheduleDelay := 0, isUnique := false }

def jSchedW : JobBase :=
  { name := nameDEMO, parameters := [], statusHook := emptyStr,
    metadata := some mdSchedZeroW }

def reqSchedZeroW : JobRequest := { job := some jSchedW }

def secretW : String := "s3cr3t"

def schemeHeaderW : String := "Harbor-Secret s3cr3t"

def envReadW : String → String := fun k => if k == uiAuthSecret then secretW else emptyStr

def reqSchemeW : HTTPRequest := { headers := [(authHeader, schemeHeaderW)] }

def reqBareW : HTTPRequest := { headers := [(authHeader, secretW)] }

def reqNoHeaderW : HTTPRequest := { headers := [] }

def newLoggerW : String → String → Option JobLogger :=
  fun p l => some { path := p, level := l }

def opFW : Unit → String × Bool := fun _ => (emptyStr, false)

def ciFW : String → Unit := fun _ => ()

def depW : JobData :=
  { id := "uuid-1",
    extraData := [(opCommandFuncKey, GoVal.opCmdF opFW), (checkInFuncKey, GoVal.checkInF ciFW)] }

def basePathW : String := "/var/log/jobs"

def levelINFO : String := "INFO"

def checkinMsgW : String := "30 percent"

def implAW : String := "implA"

def implBW : String := "implB"

def levelEBUG : String := "EBUG"

def urlNormW : String := "redis://redis:6379"

def nsW : String := "harbor_ns"

def envAllOkW : SysEnv :=
  { readEnv := fun _ => emptyStr, fileExists := fun _ => true, dirExists := fun _ => true,
    urlParseOk := fun _ => true, translateRedisAddress := fun _ => none }

def cfgEBUGW : Configuration :=
  { protocol := JobServiceProtocolHTTP, port := 8080, httpsConfig := none,
    poolConfig := some { workerCount := 10, backend := JobServicePoolBackendRedis,
                         redisPoolCfg := some { redisURL := urlNormW, nameSpace := nsW } },
    loggerConfig := some { basePath := basePathW, logLevel := levelEBUG, archivePeriod := 1 } }

def rawRedisW : String := "redis:6379"

def docW : YamlDoc :=
  { protocol := some JobServiceProtocolHTTP, port := some 8080, httpsConfig := none,
    poolConfig := some { workerCount := some 10, backend := some JobServicePoolBackendRedis,
                         redisPool := some { redisURL := some rawRedisW,
                                             nameSpace := some nsW } },
    loggerConfig := some { basePath := some basePathW, logLevel := some levelINFO,
                           archivePeriod := some 1 } }

def emptyConfigW : Configuration :=
  { protocol := emptyStr, port := 0, httpsConfig := none, poolConfig := none,
    loggerConfig := none }

def loadedW : Configuration :=
  { protocol := JobServiceProtocolHTTP, port := 8080, httpsConfig := none,
    poolConfig := some { workerCount := 10, backend := JobServicePoolBackendRedis,
                         redisPoolCfg := some { redisURL := urlNormW, nameSpace := nsW } },
    loggerConfig := some { basePath := basePathW, logLevel := levelINFO,
                           archivePeriod := 1 } }

/-! ## Theorems -/

/-! ### Controller: validation order, hook registration, scheduled delay -/

theorem launchJob_of_validJobReq_error (cronOk : String → Bool) (p : PoolModel)
    (req : JobRequest) (e : LaunchError) (h : validJobReq cronOk req = some e) :
    launchJob cronOk p req = (Except.error e, []) := by
  unfold launchJob
  rw [h]

theorem specValidationError_eq (cronOk : String → Bool) (p : PoolModel) (req : JobRequest) :
    specValidationError cronOk p req =
      match validJobReq cronOk req with
      | some e => some e
      | none =>
        match req.job with
        | none => none
        | some j =>
          match p.isKnownJob j.name with
          | none => some (LaunchError.unknownJob j.name)
          | some jobType =>
            if ! p.validateJobParameters jobType j.parameters then
              some LaunchError.invalidParameters
            else none := by
  rcases req with ⟨_ | ⟨nm, ps, hk, _ | md⟩⟩
  · rfl
  · simp [specValidationError, validJobReq]
    split <;> rfl
  · simp only [specValidationError, validJobReq]
    repeat' split <;> simp_all

/-- C1: `LaunchJob` validates in the normative order. Whenever the
spec-ordered first failing check (`specValidationError`: job present
with non-empty name and metadata, then supported kind, then
kind-specific metadata, then registered name, then parameter validator)
produces an error, `LaunchJob` returns exactly that error — even when
later checks would also fail — and makes no pool call at all, so nothing
is enqueued on a validation failure. -/
theorem launchJob_validation_order (cronOk : String → Bool) (p : PoolModel) (req : JobRequest)
    (e : LaunchError) (h : specValidationError cronOk p req = some e) :
    launchJob cronOk p req = (Except.error e, []) := by
  rw [specValidationError_eq] at h
  rcases hv : validJobReq cronOk req with _ | e'
  · simp only [hv] at h
    rcases hj : req.job with _ | j
    · simp only [hj] at h
      exact absurd h (by simp)
    · simp only [hj] at h
      rcases hk : p.isKnownJob j.name with _ | t
      · simp only [hk, Option.some.injEq] at h
        subst h
        simp [launchJob, hv, hj, hk]
      · cases hp : p.validateJobParameters t j.parameters
        · simp only [hk, hp, Bool.not_false, if_true, Option.some.injEq] at h
          subst h
          simp [launchJob, hv, hj, hk, hp]
        · simp [hk, hp] at h
  · simp only [hv, Option.some.injEq] at h
    subst h
    exact launchJob_of_validJobReq_error cronOk p req e' hv

/-- Witness for C1, on a request whose name is blank, whose kind is
unsupported and whose job name is unregistered: the first check's error
(`missingJobName`) wins and no pool call is made. -/
theorem launchJob_validation_order_witness :
    specValidationError cronOkW poolW reqBadW = some LaunchError.missingJobName ∧
    launchJob cronOkW poolW reqBadW = (Except.error LaunchError.missingJobName, []) :=
  ⟨rfl, launchJob_validation_order cronOkW poolW reqBadW LaunchError.missingJobName rfl⟩

/-- C2: when validation passes, the dispatch succeeds and the
`status_hook` field is non-empty, `LaunchJob` calls `RegisterHook` on
the pool and returns with no error; the returned stats carry
`hook_status = "activated"` when registration succeeded and
`hook_status = "error"` when it failed — a hook-registration failure is
never a reason for `LaunchJob` to fail. -/
theorem launchJob_hook_registration_best_effort (cronOk : String → Bool) (p : PoolModel)
    (req : JobRequest) (j : JobBase) (md : JobMetadata) (jobType : String) (s0 : JobStats)
    (call : PoolCall)
    (hj : req.job = some j) (hmd : j.metadata = some md)
    (hv : validJobReq cronOk req = none)
    (hknown : p.isKnownJob j.name = some jobType)
    (hparams : p.validateJobParameters jobType j.parameters = true)
    (hdisp : dispatch p j md = (Except.ok s0, call))
    (hhook : IsEmptyStr j.statusHook = false) :
    launchJob cronOk p req =
      (Except.ok (withHookStatus s0
        (if p.registerHook s0.stats.jobID j.statusHook then hookActivated
         else hookDeactivated)),
       [call, PoolCall.registerHook s0.stats.jobID j.statusHook]) := by
  unfold launchJob
  simp only [hv, hj, hknown, hmd, hdisp, hparams, hhook, Bool.not_true, Bool.false_eq_true,
    if_false]
  cases hr : p.registerHook s0.stats.jobID j.statusHook <;> simp [hr]

/-- Witness for C2 on a concrete generic request with a status hook. -/
theorem launchJob_hook_registration_best_effort_witness :
    launchJob cronOkW poolW reqHookW =
      (Except.ok (withHookStatus statsW
        (if poolW.registerHook statsW.stats.jobID jHookW.statusHook then hookActivated
         else hookDeactivated)),
       [PoolCall.enqueue jHookW.name jHookW.parameters mdGenericW.isUnique,
        PoolCall.registerHook statsW.stats.jobID jHookW.statusHook]) :=
  launchJob_hook_registration_best_effort cronOkW poolW reqHookW jHookW mdGenericW
    jobTypeW statsW (PoolCall.enqueue jHookW.name jHookW.parameters mdGenericW.isUnique)
    rfl rfl rfl rfl rfl rfl rfl

/-- C6: a `Scheduled` request with `schedule_delay = 0` fails with an
`InvalidRequest`-class validation error before any dispatch to the pool
(no pool call is made), and a `Scheduled` request passes `validJobReq`
only when `schedule_delay > 0`. -/
theorem scheduled_requires_positive_delay (cronOk : String → Bool) (p : PoolModel)
    (req : JobRequest) (j : JobBase) (md : JobMetadata)
    (hj : req.job = some j) (hmd : j.metadata = some md)
    (hk : md.jobKind = JobKindScheduled) :
    (md.scheduleDelay = 0 →
      ∃ e, launchJob cronOk p req = (Except.error e, []) ∧ e.isInvalidRequest = true) ∧
    (validJobReq cronOk req = none → 0 < md.scheduleDelay) := by
  constructor
  · intro hd
    cases hn : IsEmptyStr j.name
    · refine ⟨LaunchError.missingScheduleDelay, ?_, rfl⟩
      apply launchJob_of_validJobReq_error
      unfold validJobReq
      simp [hj, hn, hmd, hk, hd]
    · refine ⟨LaunchError.missingJobName, ?_, rfl⟩
      apply launchJob_of_validJobReq_error
      unfold validJobReq
      simp [hj, hn]
  · intro hv
    rcases Nat.eq_zero_or_pos md.scheduleDelay with hd | hd
    · exfalso
      unfold validJobReq at hv
      simp only [hj] at hv
      cases hn : IsEmptyStr j.name <;> simp [hn, hmd, hk, hd] at hv
    · exact hd

/-- Witness for C6 on a concrete `Scheduled` request with zero delay. -/
theorem scheduled_requires_positive_delay_witness :
    ∃ e, launchJob cronOkW poolW reqSchedZeroW = (Except.error e, []) ∧
      e.isInvalidRequest = true :=
  (scheduled_requires_positive_delay cronOkW poolW reqSchedZeroW jSchedW mdSchedZeroW
    rfl rfl rfl).1 rfl

/-! ### Authentication -/

/-- C3 (code bug): `DoAuth` compares the whole trimmed `Authorization`
header against the `CORE_SECRET` value, so the documented bearer-style
form `<scheme> <secret>` (README: `Authorization : Harbor-Secret
<secret>`) is rejected even when the secret part matches, while a header
carrying the bare secret with no scheme is accepted; a nil request and a
missing header are rejected. -/
theorem doAuth_compares_whole_header :
    DoAuth envReadW (some reqSchemeW) = some AuthError.unauthorized ∧
    DoAuth envReadW (some reqBareW) = none ∧
    DoAuth envReadW none = some AuthError.nilRequest ∧
    DoAuth envReadW (some reqNoHeaderW) = some AuthError.missingHeader := by
  refine ⟨?_, ?_, ?_, ?_⟩ <;> rfl

/-! ### Configuration validation: logger level -/

/-- C5 (code bug): `validate` tests the logger level with Go
`strings.Contains("DEBUG,INFO,WARNING,ERROR,FATAL", level)` — a
substring check — so the configuration with level `"EBUG"`, which is
none of the five documented values, passes validation. -/
theorem validate_accepts_level_substring :
    Configuration.validate envAllOkW cfgEBUGW = none ∧
    (levelEBUG ≠ "DEBUG" ∧ levelEBUG ≠ "INFO" ∧ levelEBUG ≠ "WARNING" ∧
     levelEBUG ≠ "ERROR" ∧ levelEBUG ≠ "FATAL") := by
  refine ⟨by decide, by decide⟩

/-! ### Registry -/

/-- C9: a first `Register` of a name stores the implementation; a second
`Register` of the same name panics (the `none` result) instead of
overwriting it. -/
theorem register_duplicate_panics {α : Type} (reg : List (String × α)) (jobName : String)
    (f g : α) (h : reg.lookup jobName = none) :
    ∃ reg2, register reg jobName f = some reg2 ∧ reg2.lookup jobName = some f ∧
      register reg2 jobName g = none := by
  refine ⟨(jobName, f) :: reg, ?_, ?_, ?_⟩
  · unfold register
    rw [h]
  · simp [List.lookup]
  · unfold register
    simp [List.lookup]

/-- Witness for C9 on the empty registry. -/
theorem register_duplicate_panics_witness :
    ∃ reg2, register ([] : List (String × String)) nameDEMO implAW = some reg2 ∧
      reg2.lookup nameDEMO = some implAW ∧ register reg2 nameDEMO implBW = none :=
  register_duplicate_panics [] nameDEMO implAW implBW rfl

/-! ### Execution context -/

/-- C10: on a context whose closures were not injected — such as the
template context `NewContext` produces — `OPCommand` returns
`("", false)` and `Checkin` returns an error; neither dereferences a nil
function. -/
theorem context_nil_safe_before_injection (n : Nat) (c : Context) (s : String)
    (hop : c.opCommandFunc = none) (hci : c.checkInFunc = none) :
    Context.OPCommand c = (emptyStr, false) ∧
    Context.Checkin c s = Except.error CheckinError.nilCheckInFunc ∧
    (NewContext n).opCommandFunc = none ∧ (NewContext n).checkInFunc = none := by
  refine ⟨?_, ?_, rfl, rfl⟩
  · unfold Context.OPCommand
    rw [hop]
  · unfold Context.Checkin
    rw [hci]

/-- Witness for C10 on the freshly created template context. -/
theorem context_nil_safe_before_injection_witness :
    Context.OPCommand (NewContext 0) = (emptyStr, false) ∧
    Context.Checkin (NewContext 0) checkinMsgW = Except.error CheckinError.nilCheckInFunc ∧
    (NewContext 0).opCommandFunc = none ∧ (NewContext 0).checkInFunc = none :=
  context_nil_safe_before_injection 0 (NewContext 0) checkinMsgW rfl rfl

/-- C4: `Context.Build` fails when `ExtraData` lacks an `opCommandFunc`
entry holding a `job.CheckOPCmdFunc`, or lacks a `checkInFunc` entry
holding a `job.CheckInFunc`; when both closures are present and
well-typed and the job logger initialises, it succeeds and the returned
context carries both closures. -/
theorem build_requires_injected_closures (newLogger : String → String → Option JobLogger)
    (basePath logLevel : String) (c : Context) (dep : JobData) :
    ((∀ f, dep.extraData.lookup opCommandFuncKey ≠ some (GoVal.opCmdF f)) →
      ∃ e, Context.build newLogger basePath logLevel c dep = Except.error e) ∧
    ((∀ g, dep.extraData.lookup checkInFuncKey ≠ some (GoVal.checkInF g)) →
      ∃ e, Context.build newLogger basePath logLevel c dep = Except.error e) ∧
    (∀ f g lg, dep.extraData.lookup opCommandFuncKey = some (GoVal.opCmdF f) →
      dep.extraData.lookup checkInFuncKey = some (GoVal.checkInF g) →
      newLogger (basePath ++ "/" ++ dep.id ++ ".log") logLevel = some lg →
      ∃ jc, Context.build newLogger basePath logLevel c dep = Except.ok jc ∧
        jc.opCommandFunc = some f ∧ jc.checkInFunc = some g) := by
  refine ⟨?_, ?_, ?_⟩
  · intro hno
    cases hlg : newLogger (basePath ++ "/" ++ dep.id ++ ".log") logLevel
    · exact ⟨BuildError.loggerInitFailed, by simp [Context.build, hlg]⟩
    · rcases hl : dep.extraData.lookup opCommandFuncKey with _ | v
      · exact ⟨BuildError.missingOpCommandFunc, by simp [Context.build, hlg, hl]⟩
      · cases v
        case opCmdF f => exact absurd hl (hno f)
        all_goals exact ⟨BuildError.missingOpCommandFunc, by simp [Context.build, hlg, hl]⟩
  · intro hno
    cases hlg : newLogger (basePath ++ "/" ++ dep.id ++ ".log") logLevel
    · exact ⟨BuildError.loggerInitFailed, by simp [Context.build, hlg]⟩
    · rcases hl : dep.extraData.lookup opCommandFuncKey with _ | v
      · exact ⟨BuildError.missingOpCommandFunc, by simp [Context.build, hlg, hl]⟩
      · rcases hl2 : dep.extraData.lookup checkInFuncKey with _ | w
        · cases v
          case opCmdF f =>
            exact ⟨BuildError.missingCheckInFunc, by simp [Context.build, hlg, hl, hl2]⟩
          all_goals exact ⟨BuildError.missingOpCommandFunc, by simp [Context.build, hlg, hl]⟩
        · cases w
          case checkInF g => exact absurd hl2 (hno g)
          all_goals
            cases v
            case opCmdF f =>
              exact ⟨BuildError.missingCheckInFunc, by simp [Context.build, hlg, hl, hl2]⟩
            all_goals exact ⟨BuildError.missingOpCommandFunc, by simp [Context.build, hlg, hl]⟩
  · intro f g lg hf hg hlg
    unfold Context.build
    simp only [hlg, hf, hg]
    exact ⟨_, rfl, rfl, rfl⟩

/-- Witness for C4: a `JobData` carrying both closures builds
successfully and the built context holds them. -/
theorem build_requires_injected_closures_witness :
    ∃ jc, Context.build newLoggerW basePathW levelINFO (NewContext 0) depW = Except.ok jc ∧
      jc.opCommandFunc = some opFW ∧ jc.checkInFunc = some ciFW :=
  (build_requires_injected_closures newLoggerW basePathW levelINFO (NewContext 0) depW).2.2
    opFW ciFW _ rfl rfl rfl

/-! ### Configuration loading: redis-url normalisation and idempotence -/

theorem load_snd_eq (env : SysEnv) (doc : Option YamlDoc) (detectEnv : Bool)
    (c : Configuration) :
    (Configuration.Load env doc detectEnv c).snd =
      ((Configuration.Load env doc detectEnv c).fst).validate env := rfl

theorem validate_none_parts (env : SysEnv) (c : Configuration)
    (h : c.validate env = none) :
    checkProtocolPort c = none ∧ checkHTTPSCert env c = none ∧
    checkPool env c = none ∧ checkLogger env c = none := by
  unfold Configuration.validate at h
  rcases h1 : checkProtocolPort c with _ | e
  · rw [h1] at h
    simp only [firstErr] at h
    rcases h2 : checkHTTPSCert env c with _ | e
    · rw [h2] at h
      simp only [firstErr] at h
      rcases h3 : checkPool env c with _ | e
      · rw [h3] at h
        simp only [firstErr] at h
        exact ⟨rfl, rfl, rfl, h⟩
      · rw [h3] at h
        simp [firstErr] at h
    · rw [h2] at h
      simp [firstErr] at h
  · rw [h1] at h
    simp [firstErr] at h

theorem validate_none_pool_facts (env : SysEnv) (c : Configuration)
    (h : c.validate env = none) :
    c.poolConfig.isSome = true ∧
    bkOf c.poolConfig = JobServicePoolBackendRedis ∧
    (rcOf c.poolConfig).isSome = true ∧
    IsEmptyStr (urlOf c.poolConfig) = false ∧
    startsWithStr (urlOf c.poolConfig) redisSchema = true ∧
    env.urlParseOk (urlOf c.poolConfig) = true := by
  have hp := (validate_none_parts env c h).2.2.1
  unfold checkPool at hp
  repeat' split at hp
  all_goals simp_all [bkOf, rcOf, urlOf]

/-- C7: a configuration on which `Load` succeeds carries the redis
backend and a redis url that starts with the `redis://` schema and
parses; during `Load` a non-empty address without the schema that
parses gets the schema prepended; and `validate` rejects any
configuration whose redis url still lacks the schema. -/
theorem load_normalizes_redis_url (env : SysEnv) (doc : Option YamlDoc) (detectEnv : Bool)
    (c c2 : Configuration) (h : Configuration.Load env doc detectEnv c = (c2, none)) :
    (∃ pc rc, c2.poolConfig = some pc ∧ pc.backend = JobServicePoolBackendRedis ∧
      pc.redisPoolCfg = some rc ∧ startsWithStr rc.redisURL redisSchema = true ∧
      env.urlParseOk rc.redisURL = true) ∧
    (∀ u, IsEmptyStr u = false → env.urlParseOk u = true →
      startsWithStr u redisSchema = false →
      normalizeRedisURL env u = redisSchema ++ u) ∧
    (∀ (c3 : Configuration) (pc : PoolConfig) (rc : RedisPoolConfig),
      c3.poolConfig = some pc → pc.redisPoolCfg = some rc →
      startsWithStr rc.redisURL redisSchema = false →
      c3.validate env ≠ none) := by
  have h1 : (Configuration.Load env doc detectEnv c).1 = c2 := by rw [h]
  have h2 : (Configuration.Load env doc detectEnv c).2 = none := by rw [h]
  have hval : c2.validate env = none := by
    rw [← h1, ← load_snd_eq, h2]
  refine ⟨?_, ?_, ?_⟩
  · have facts := validate_none_pool_facts env c2 hval
    rcases hp : c2.poolConfig with _ | pc
    · rw [hp] at facts
      simp at facts
    · rcases hrc : pc.redisPoolCfg with _ | rc
      · rw [hp] at facts
        simp [rcOf, hrc] at facts
      · refine ⟨pc, rc, rfl, ?_, hrc, ?_, ?_⟩ <;>
          simp_all [bkOf, rcOf, urlOf, hp, hrc]
  · intro u hu hparse hpre
    simp [normalizeRedisURL, hu, hparse, hpre]
  · intro c3 pc rc hp3 hrc3 hnopre heq
    have facts := validate_none_pool_facts env c3 heq
    rw [hp3] at facts
    simp [rcOf, urlOf, hrc3] at facts
    simp_all

set_option maxHeartbeats 2000000 in
/-- Witness for C7: a concrete load whose yaml redis url `redis:6379`
lacks the schema; the loaded configuration carries
`redis://redis:6379`. -/
theorem load_normalizes_redis_url_witness :
    (∃ pc rc, loadedW.poolConfig = some pc ∧ pc.backend = JobServicePoolBackendRedis ∧
      pc.redisPoolCfg = some rc ∧ startsWithStr rc.redisURL redisSchema = true ∧
      envAllOkW.urlParseOk rc.redisURL = true) ∧
    (∀ u, IsEmptyStr u = false → envAllOkW.urlParseOk u = true →
      startsWithStr u redisSchema = false →
      normalizeRedisURL envAllOkW u = redisSchema ++ u) ∧
    (∀ (c3 : Configuration) (pc : PoolConfig) (rc : RedisPoolConfig),
      c3.poolConfig = some pc → pc.redisPoolCfg = some rc →
      startsWithStr rc.redisURL redisSchema = false →
      c3.validate envAllOkW ≠ none) :=
  load_normalizes_redis_url envAllOkW (some docW) true emptyConfigW loadedW (by decide)

/-! ### Load idempotence: helper algebra -/


theorem getD_absorb {α : Type} (a : Option α) (x : α) : a.getD (a.getD x) = a.getD x := by
  cases a <;> rfl

theorem chainAbsorb {α : Type} (e d : Option α) (x : α) :
    e.getD (d.getD (e.getD (d.getD x))) = e.getD (d.getD x) := by
  cases e <;> cases d <;> rfl

theorem orAbsorb3 (a b c d : Bool) :
    (a || (b || (c || (a || (b || (c || d)))))) = (a || (b || (c || d))) := by
  cases a <;> cases b <;> cases c <;> cases d <;> rfl

theorem orAbsorb2 (x y z : Bool) : (x || (y || (x || (y || z)))) = (x || (y || z)) := by
  cases x <;> cases y <;> cases z <;> rfl

theorem em_protocol (env : SysEnv) (doc : Option YamlDoc) (c : Configuration) :
    (emStep env doc c).protocol =
      (envStr env jobServiceProtocol).getD ((docProtocol doc).getD c.protocol) := by
  cases doc <;> rfl

theorem em_port (env : SysEnv) (doc : Option YamlDoc) (c : Configuration) :
    (emStep env doc c).port =
      (envNat env jobServicePort).getD ((docPort doc).getD c.port) := by
  cases doc <;> rfl

theorem em_https (env : SysEnv) (doc : Option YamlDoc) (c : Configuration) :
    (emStep env doc c).httpsConfig =
      if (envStr env jobServiceProtocol).getD ((docProtocol doc).getD c.protocol) ==
          JobServiceProtocolHTTPS then
        applyHTTPSEnv (envStr env jobServiceHTTPCert) (envStr env jobServiceHTTPKey)
          (mergeHTTPSOpt (docHTTPS doc) c.httpsConfig)
      else mergeHTTPSOpt (docHTTPS doc) c.httpsConfig := by
  cases doc <;> rfl

theorem em_pool (env : SysEnv) (doc : Option YamlDoc) (c : Configuration) :
    (emStep env doc c).poolConfig =
      applyPoolEnv (envStr env jobServiceWorkerPoolBackend) (envNat env jobServiceWorkers)
        (envStr env jobServiceRedisURL) (envStr env jobServiceRedisNamespace)
        (mergePoolOpt (docPool doc) c.poolConfig) := by
  cases doc <;> rfl

theorem em_logger (env : SysEnv) (doc : Option YamlDoc) (c : Configuration) :
    (emStep env doc c).loggerConfig =
      applyLoggerEnv (envStr env jobServiceLoggerBasePath) (envStr env jobServiceLoggerLevel)
        (envNat env jobServiceLoggerArchivePeriod)
        (mergeLoggerOpt (docLogger doc) c.loggerConfig) := by
  cases doc <;> rfl

theorem loadSteps_protocol (env : SysEnv) (doc : Option YamlDoc) (c : Configuration) :
    (loadSteps env doc c).protocol = (emStep env doc c).protocol := rfl

theorem loadSteps_port (env : SysEnv) (doc : Option YamlDoc) (c : Configuration) :
    (loadSteps env doc c).port = (emStep env doc c).port := rfl

theorem loadSteps_https (env : SysEnv) (doc : Option YamlDoc) (c : Configuration) :
    (loadSteps env doc c).httpsConfig = (emStep env doc c).httpsConfig := rfl

theorem loadSteps_logger (env : SysEnv) (doc : Option YamlDoc) (c : Configuration) :
    (loadSteps env doc c).loggerConfig = (emStep env doc c).loggerConfig := rfl

theorem loadSteps_pool (env : SysEnv) (doc : Option YamlDoc) (c : Configuration) :
    (loadSteps env doc c).poolConfig = tPool env ((emStep env doc c).poolConfig) := rfl

theorem AH_pres (ce ke : Option String) (h : Option HTTPSConfig) :
    (applyHTTPSEnv ce ke h).isSome = (ce.isSome || (ke.isSome || h.isSome)) := by
  cases ce <;> cases ke <;> cases h <;> rfl

theorem AH_cert (ce ke : Option String) (h : Option HTTPSConfig) :
    certOf (applyHTTPSEnv ce ke h) = ce.getD (certOf h) := by
  cases ce <;> cases ke <;> cases h <;> rfl

theorem AH_key (ce ke : Option String) (h : Option HTTPSConfig) :
    keyOf (applyHTTPSEnv ce ke h) = ke.getD (keyOf h) := by
  cases ce <;> cases ke <;> cases h <;> rfl

theorem MH_pres (dh : Option YamlHTTPS) (h : Option HTTPSConfig) :
    (mergeHTTPSOpt dh h).isSome = (dh.isSome || h.isSome) := by
  cases dh <;> cases h <;> rfl

theorem MH_cert (dh : Option YamlHTTPS) (h : Option HTTPSConfig) :
    certOf (mergeHTTPSOpt dh h) = (dh.bind YamlHTTPS.cert).getD (certOf h) := by
  cases dh <;> rfl

theorem MH_key (dh : Option YamlHTTPS) (h : Option HTTPSConfig) :
    keyOf (mergeHTTPSOpt dh h) = (dh.bind YamlHTTPS.key).getD (keyOf h) := by
  cases dh <;> rfl

theorem https_ext (h1 h2 : Option HTTPSConfig) (hp : h1.isSome = h2.isSome)
    (hc : certOf h1 = certOf h2) (hk : keyOf h1 = keyOf h2) : h1 = h2 := by
  cases h1 with
  | none =>
    cases h2 with
    | none => rfl
    | some b => simp at hp
  | some a =>
    cases h2 with
    | none => simp at hp
    | some b =>
      obtain ⟨ac, ak⟩ := a
      obtain ⟨bc, bk⟩ := b
      simp_all [certOf, keyOf]

theorem rc_ext (r1 r2 : Option RedisPoolConfig) (hp : r1.isSome = r2.isSome)
    (hu : (r1.getD defaultRedisPoolConfig).redisURL =
      (r2.getD defaultRedisPoolConfig).redisURL)
    (hn : (r1.getD defaultRedisPoolConfig).nameSpace =
      (r2.getD defaultRedisPoolConfig).nameSpace) : r1 = r2 := by
  cases r1 with
  | none =>
    cases r2 with
    | none => rfl
    | some b => simp at hp
  | some a =>
    cases r2 with
    | none => simp at hp
    | some b =>
      obtain ⟨au, an⟩ := a
      obtain ⟨bu, bn⟩ := b
      simp_all

theorem pool_ext (p1 p2 : Option PoolConfig) (hp : p1.isSome = p2.isSome)
    (hw : wcOf p1 = wcOf p2) (hb : bkOf p1 = bkOf p2)
    (hr : (rcOf p1).isSome = (rcOf p2).isSome) (hu : urlOf p1 = urlOf p2)
    (hn : nsOf p1 = nsOf p2) : p1 = p2 := by
  cases p1 with
  | none =>
    cases p2 with
    | none => rfl
    | some b => simp at hp
  | some a =>
    cases p2 with
    | none => simp at hp
    | some b =>
      obtain ⟨aw, ab, ar⟩ := a
      obtain ⟨bw, bb, br⟩ := b
      simp only [wcOf, bkOf, rcOf, urlOf, nsOf, Option.getD_some] at hw hb hr hu hn
      have har : ar = br := rc_ext ar br hr hu hn
      simp_all

theorem logger_ext (l1 l2 : Option LoggerConfig) (hp : l1.isSome = l2.isSome)
    (hb : pathOf l1 = pathOf l2) (hl : levelOf l1 = levelOf l2)
    (ha : periodOf l1 = periodOf l2) : l1 = l2 := by
  cases l1 with
  | none =>
    cases l2 with
    | none => rfl
    | some b => simp at hp
  | some a =>
    cases l2 with
    | none => simp at hp
    | some b =>
      obtain ⟨ap, al, aa⟩ := a
      obtain ⟨bp, bl, ba⟩ := b
      simp_all [pathOf, levelOf, periodOf]

theorem config_ext (c1 c2 : Configuration) (h1 : c1.protocol = c2.protocol)
    (h2 : c1.port = c2.port) (h3 : c1.httpsConfig = c2.httpsConfig)
    (h4 : c1.poolConfig = c2.poolConfig) (h5 : c1.loggerConfig = c2.loggerConfig) :
    c1 = c2 := by
  obtain ⟨p1, q1, r1, s1, t1⟩ := c1
  obtain ⟨p2, q2, r2, s2, t2⟩ := c2
  simp_all



theorem normalize_empty (env : SysEnv) : normalizeRedisURL env emptyStr = emptyStr := rfl

theorem normalize_fixed (env : SysEnv) (u : String) (h1 : IsEmptyStr u = false)
    (h2 : env.urlParseOk u = true) (h3 : startsWithStr u redisSchema = true) :
    normalizeRedisURL env u = u := by
  simp [normalizeRedisURL, h1, h2, h3]

theorem MP_pres (dp : Option YamlPool) (p : Option PoolConfig) :
    (mergePoolOpt dp p).isSome = (dp.isSome || p.isSome) := by
  cases dp <;> cases p <;> rfl

theorem MP_wc (dp : Option YamlPool) (p : Option PoolConfig) :
    wcOf (mergePoolOpt dp p) = (dp.bind YamlPool.workerCount).getD (wcOf p) := by
  cases dp <;> rfl

theorem MP_bk (dp : Option YamlPool) (p : Option PoolConfig) :
    bkOf (mergePoolOpt dp p) = (dp.bind YamlPool.backend).getD (bkOf p) := by
  cases dp <;> rfl

theorem MP_rcpres (dp : Option YamlPool) (p : Option PoolConfig) :
    (rcOf (mergePoolOpt dp p)).isSome =
      ((dp.bind YamlPool.redisPool).isSome || (rcOf p).isSome) := by
  cases dp with
  | none => rfl
  | some y =>
    obtain ⟨w, b, r⟩ := y
    cases r <;> rfl

theorem MP_url (dp : Option YamlPool) (p : Option PoolConfig) :
    urlOf (mergePoolOpt dp p) =
      ((dp.bind YamlPool.redisPool).bind YamlRedisPool.redisURL).getD (urlOf p) := by
  cases dp with
  | none => rfl
  | some y =>
    obtain ⟨w, b, r⟩ := y
    cases r <;> rfl

theorem MP_ns (dp : Option YamlPool) (p : Option PoolConfig) :
    nsOf (mergePoolOpt dp p) =
      ((dp.bind YamlPool.redisPool).bind YamlRedisPool.nameSpace).getD (nsOf p) := by
  cases dp with
  | none => rfl
  | some y =>
    obtain ⟨w, b, r⟩ := y
    cases r <;> rfl

theorem AP_pres (be : Option String) (we : Option Nat) (ue ne : Option String)
    (q : Option PoolConfig) :
    (applyPoolEnv be we ue ne q).isSome = (be.isSome || (we.isSome || q.isSome)) := by
  cases be <;> cases we <;> cases q <;> simp [applyPoolEnv] <;> split <;> rfl

theorem AP_bk (be : Option String) (we : Option Nat) (ue ne : Option String)
    (q : Option PoolConfig) :
    bkOf (applyPoolEnv be we ue ne q) = be.getD (bkOf q) := by
  cases be <;> cases we <;> cases q <;>
    simp [applyPoolEnv, applyRedisEnv, bkOf] <;> split <;> simp [bkOf]

theorem AP_wc (be : Option String) (we : Option Nat) (ue ne : Option String)
    (q : Option PoolConfig) :
    wcOf (applyPoolEnv be we ue ne q) = we.getD (wcOf q) := by
  cases be <;> cases we <;> cases q <;>
    simp [applyPoolEnv, applyRedisEnv, wcOf] <;> split <;> simp [wcOf]

theorem AP_rcpres (be : Option String) (we : Option Nat) (ue ne : Option String)
    (q : Option PoolConfig) :
    (rcOf (applyPoolEnv be we ue ne q)).isSome =
      ((apCond be we q && (ue.isSome || ne.isSome)) || (rcOf q).isSome) := by
  cases be <;> cases we <;> cases ue <;> cases ne <;> cases q <;>
    simp [applyPoolEnv, applyRedisEnv, apCond, rcOf, bkOf] <;> split <;>
    simp_all [rcOf]

theorem AP_url (be : Option String) (we : Option Nat) (ue ne : Option String)
    (q : Option PoolConfig) :
    urlOf (applyPoolEnv be we ue ne q) =
      (if apCond be we q then ue.getD (urlOf q) else urlOf q) := by
  cases be <;> cases we <;> cases ue <;> cases ne <;> cases q <;>
    simp [applyPoolEnv, applyRedisEnv, apCond, rcOf, urlOf, bkOf] <;> split <;>
    simp_all [rcOf, urlOf]

theorem AP_ns (be : Option String) (we : Option Nat) (ue ne : Option String)
    (q : Option PoolConfig) :
    nsOf (applyPoolEnv be we ue ne q) =
      (if apCond be we q then ne.getD (nsOf q) else nsOf q) := by
  cases be <;> cases we <;> cases ue <;> cases ne <;> cases q <;>
    simp [applyPoolEnv, applyRedisEnv, apCond, rcOf, nsOf, bkOf] <;> split <;>
    simp_all [rcOf, nsOf]

theorem TP_pres (env : SysEnv) (p : Option PoolConfig) :
    (tPool env p).isSome = p.isSome := by
  cases p with
  | none => rfl
  | some pc =>
    obtain ⟨w, b, r⟩ := pc
    cases r <;> rfl

theorem TP_wc (env : SysEnv) (p : Option PoolConfig) :
    wcOf (tPool env p) = wcOf p := by
  cases p with
  | none => rfl
  | some pc =>
    obtain ⟨w, b, r⟩ := pc
    cases r <;> rfl

theorem TP_bk (env : SysEnv) (p : Option PoolConfig) :
    bkOf (tPool env p) = bkOf p := by
  cases p with
  | none => rfl
  | some pc =>
    obtain ⟨w, b, r⟩ := pc
    cases r <;> rfl

theorem TP_rcpres (env : SysEnv) (p : Option PoolConfig) :
    (rcOf (tPool env p)).isSome = (rcOf p).isSome := by
  cases p with
  | none => rfl
  | some pc =>
    obtain ⟨w, b, r⟩ := pc
    cases r <;> rfl

theorem TP_ns (env : SysEnv) (p : Option PoolConfig) :
    nsOf (tPool env p) = nsOf p := by
  cases p with
  | none => rfl
  | some pc =>
    obtain ⟨w, b, r⟩ := pc
    cases r <;> rfl

theorem TP_url (env : SysEnv) (p : Option PoolConfig) :
    urlOf (tPool env p) = normalizeRedisURL env (urlOf p) := by
  cases p with
  | none => exact (normalize_empty env).symm
  | some pc =>
    obtain ⟨w, b, r⟩ := pc
    cases r with
    | none => exact (normalize_empty env).symm
    | some rc => rfl

theorem ML_pres (dl : Option YamlLogger) (l : Option LoggerConfig) :
    (mergeLoggerOpt dl l).isSome = (dl.isSome || l.isSome) := by
  cases dl <;> cases l <;> rfl

theorem ML_path (dl : Option YamlLogger) (l : Option LoggerConfig) :
    pathOf (mergeLoggerOpt dl l) = (dl.bind YamlLogger.basePath).getD (pathOf l) := by
  cases dl <;> rfl

theorem ML_level (dl : Option YamlLogger) (l : Option LoggerConfig) :
    levelOf (mergeLoggerOpt dl l) = (dl.bind YamlLogger.logLevel).getD (levelOf l) := by
  cases dl <;> rfl

theorem ML_period (dl : Option YamlLogger) (l : Option LoggerConfig) :
    periodOf (mergeLoggerOpt dl l) = (dl.bind YamlLogger.archivePeriod).getD (periodOf l) := by
  cases dl <;> rfl

theorem AL_pres (pe le : Option String) (ae : Option Nat) (l : Option LoggerConfig) :
    (applyLoggerEnv pe le ae l).isSome =
      (pe.isSome || (le.isSome || (ae.isSome || l.isSome))) := by
  cases pe <;> cases le <;> cases ae <;> cases l <;> rfl

theorem AL_path (pe le : Option String) (ae : Option Nat) (l : Option LoggerConfig) :
    pathOf (applyLoggerEnv pe le ae l) = pe.getD (pathOf l) := by
  cases pe <;> cases le <;> cases ae <;> cases l <;> rfl

theorem AL_level (pe le : Option String) (ae : Option Nat) (l : Option LoggerConfig) :
    levelOf (applyLoggerEnv pe le ae l) = le.getD (levelOf l) := by
  cases pe <;> cases le <;> cases ae <;> cases l <;> rfl

theorem AL_period (pe le : Option String) (ae : Option Nat) (l : Option LoggerConfig) :
    periodOf (applyLoggerEnv pe le ae l) = ae.getD (periodOf l) := by
  cases pe <;> cases le <;> cases ae <;> cases l <;> rfl



theorem mergeHTTPSOpt_absorb (dh : Option YamlHTTPS) (h : Option HTTPSConfig) :
    mergeHTTPSOpt dh (mergeHTTPSOpt dh h) = mergeHTTPSOpt dh h := by
  apply https_ext
  · simp only [MH_pres]
    cases dh.isSome <;> cases h.isSome <;> rfl
  · simp only [MH_cert, getD_absorb]
  · simp only [MH_key, getD_absorb]

theorem applyMergeHTTPS_absorb (ce ke : Option String) (dh : Option YamlHTTPS)
    (h : Option HTTPSConfig) :
    applyHTTPSEnv ce ke (mergeHTTPSOpt dh (applyHTTPSEnv ce ke (mergeHTTPSOpt dh h))) =
      applyHTTPSEnv ce ke (mergeHTTPSOpt dh h) := by
  apply https_ext
  · simp only [AH_pres, MH_pres]
    cases ce.isSome <;> cases ke.isSome <;> cases dh.isSome <;> cases h.isSome <;> rfl
  · simp only [AH_cert, MH_cert, chainAbsorb]
  · simp only [AH_key, MH_key, chainAbsorb]

theorem applyMergeLogger_absorb (pe le : Option String) (ae : Option Nat)
    (dl : Option YamlLogger) (l : Option LoggerConfig) :
    applyLoggerEnv pe le ae (mergeLoggerOpt dl (applyLoggerEnv pe le ae (mergeLoggerOpt dl l))) =
      applyLoggerEnv pe le ae (mergeLoggerOpt dl l) := by
  apply logger_ext
  · simp only [AL_pres, ML_pres]
    cases pe.isSome <;> cases le.isSome <;> cases ae.isSome <;> cases dl.isSome <;>
      cases l.isSome <;> rfl
  · simp only [AL_path, ML_path, chainAbsorb]
  · simp only [AL_level, ML_level, chainAbsorb]
  · simp only [AL_period, ML_period, chainAbsorb]

theorem apCond_stable (env : SysEnv) (be : Option String) (we : Option Nat)
    (ue ne : Option String) (dp : Option YamlPool) (p0 : Option PoolConfig) :
    apCond be we (mergePoolOpt dp (tPool env (applyPoolEnv be we ue ne (mergePoolOpt dp p0)))) =
      apCond be we (mergePoolOpt dp p0) := by
  unfold apCond
  simp only [MP_pres, TP_pres, AP_pres, MP_bk, TP_bk, AP_bk, chainAbsorb]
  congr 1
  cases be.isSome <;> cases we.isSome <;> cases dp.isSome <;> cases p0.isSome <;> rfl



theorem pool_steps_idem (env : SysEnv) (be : Option String) (we : Option Nat)
    (ue ne : Option String) (dp : Option YamlPool) (p0 : Option PoolConfig)
    (hu1 : IsEmptyStr
      (urlOf (tPool env (applyPoolEnv be we ue ne (mergePoolOpt dp p0)))) = false)
    (hu2 : env.urlParseOk
      (urlOf (tPool env (applyPoolEnv be we ue ne (mergePoolOpt dp p0)))) = true)
    (hu3 : startsWithStr
      (urlOf (tPool env (applyPoolEnv be we ue ne (mergePoolOpt dp p0)))) redisSchema = true) :
    tPool env (applyPoolEnv be we ue ne
      (mergePoolOpt dp (tPool env (applyPoolEnv be we ue ne (mergePoolOpt dp p0))))) =
      tPool env (applyPoolEnv be we ue ne (mergePoolOpt dp p0)) := by
  apply pool_ext
  · simp only [TP_pres, AP_pres, MP_pres]
    cases be.isSome <;> cases we.isSome <;> cases dp.isSome <;> cases p0.isSome <;> rfl
  · simp only [TP_wc, AP_wc, MP_wc, chainAbsorb]
  · simp only [TP_bk, AP_bk, MP_bk, chainAbsorb]
  · simp only [TP_rcpres, AP_rcpres, MP_rcpres, apCond_stable, orAbsorb2]
  · simp only [TP_url, AP_url, MP_url, apCond_stable]
    simp only [TP_url, AP_url, MP_url] at hu1 hu2 hu3
    cases hC : apCond be we (mergePoolOpt dp p0)
    · simp only [hC] at hu1 hu2 hu3 ⊢
      simp at hu1 hu2 hu3 ⊢
      rcases hdu : ((dp.bind YamlPool.redisPool).bind YamlRedisPool.redisURL) with _ | w
      · simp only [hdu, Option.getD_none] at hu1 hu2 hu3 ⊢
        exact normalize_fixed env _ hu1 hu2 hu3
      · simp [hdu]
    · simp only [hC] at hu1 hu2 hu3 ⊢
      simp at hu1 hu2 hu3 ⊢
      rcases hue : ue with _ | v
      · simp only [hue, Option.getD_none] at hu1 hu2 hu3 ⊢
        rcases hdu : ((dp.bind YamlPool.redisPool).bind YamlRedisPool.redisURL) with _ | w
        · simp only [hdu, Option.getD_none] at hu1 hu2 hu3 ⊢
          exact normalize_fixed env _ hu1 hu2 hu3
        · simp [hdu]
      · simp [hue]
  · simp only [TP_ns, AP_ns, MP_ns, apCond_stable]
    cases hC : apCond be we (mergePoolOpt dp p0)
    · simp [getD_absorb]
    · simp [chainAbsorb]



theorem loadSteps_idem (env : SysEnv) (doc : Option YamlDoc) (c : Configuration)
    (hval : (loadSteps env doc c).validate env = none) :
    loadSteps env doc (loadSteps env doc c) = loadSteps env doc c := by
  apply config_ext
  · simp only [loadSteps_protocol, em_protocol, chainAbsorb]
  · simp only [loadSteps_port, em_port, chainAbsorb]
  · simp only [loadSteps_https, em_https, loadSteps_protocol, em_protocol, chainAbsorb]
    by_cases hB : ((envStr env jobServiceProtocol).getD ((docProtocol doc).getD c.protocol) ==
        JobServiceProtocolHTTPS) = true
    · simp only [hB, if_true]
      exact applyMergeHTTPS_absorb _ _ _ _
    · simp only [if_neg hB]
      exact mergeHTTPSOpt_absorb _ _
  · have facts := validate_none_pool_facts env (loadSteps env doc c) hval
    simp only [loadSteps_pool, em_pool] at facts ⊢
    exact pool_steps_idem env _ _ _ _ _ _ facts.2.2.2.1 facts.2.2.2.2.2 facts.2.2.2.2.1
  · simp only [loadSteps_logger, em_logger]
    exact applyMergeLogger_absorb _ _ _ _ _

/-- C8: config loading is idempotent — when a `Load` from a yaml
document and environment succeeds, a second `Load` on the resulting
configuration with the same document and environment succeeds and
leaves the struct unchanged, the normalised redis url included. -/
theorem load_idempotent (env : SysEnv) (doc : Option YamlDoc) (c c2 : Configuration)
    (h : Configuration.Load env doc true c = (c2, none)) :
    Configuration.Load env doc true c2 = (c2, none) := by
  have h1 : (Configuration.Load env doc true c).1 = c2 := by rw [h]
  have h2 : (Configuration.Load env doc true c).2 = none := by rw [h]
  have hfst : (Configuration.Load env doc true c).1 = loadSteps env doc c := rfl
  have hc2 : loadSteps env doc c = c2 := by rw [← hfst, h1]
  have hval : (loadSteps env doc c).validate env = none := by
    rw [hc2, ← h1, ← load_snd_eq, h2]
  have hidem := loadSteps_idem env doc c hval
  have hload2 : Configuration.Load env doc true c2 =
      (loadSteps env doc c2, (loadSteps env doc c2).validate env) := rfl
  rw [hload2, ← hc2, hidem, hval]


set_option maxHeartbeats 2000000 in
/-- Witness for C8: the concrete successful load of the C7 witness,
loaded a second time from its own result, returns the identical
configuration. -/
theorem load_idempotent_witness :
    Configuration.Load envAllOkW (some docW) true loadedW = (loadedW, none) :=
  load_idempotent envAllOkW (some docW) emptyConfigW loadedW (by decide)

end JobService
